import Mathlib

/-!
Verification development for the off-hours ticket routing engine
("freedom_fire"). The definitions below are a shallow embedding of the
repository's Python source:

- app/domain/value_objects/enums.py, geo_point.py
- app/domain/entities: ticket, manager, office, assignment, ai_analysis
- app/domain/policies: required_skills, round_robin, office_selection
- app/adapters/llm/openai_adapter.py (the deterministic parts: spam
  heuristic, sentiment markers, heuristic fallback, post adjustment,
  enum mapping)
- app/application/use_cases/process_ticket.py together with the SQL
  repository semantics of app/adapters/persistence/repositories.py

Modelling conventions:
- Python floats are modelled as real numbers; `round(x, 2)` is modelled
  as exact rounding of a real to the nearest multiple of 1/100.
- Python exceptions are modelled as `Except String` / an explicit
  `StepRes` outcome that carries the database state at the failure point.
- Python `str.lower` is modelled for the alphabets that occur in the
  marker tables (ASCII, Russian Cyrillic, Kazakh Cyrillic letters).
- Database rows live in in-memory lists; unique constraints raise on
  duplicate insert exactly as the PostgreSQL schema does.
-/

namespace Router

/-! ### Python string primitives used by the adapters -/

/-- Python whitespace for `str.strip` and the regex class `\s` (ASCII part). -/
def pyIsSpace (c : Char) : Bool :=
  c == ' ' || c == '\t' || c == '\n' || c == '\r' || c.val == 11 || c.val == 12

/-- Characters counted as word characters by the regex `\b` boundary
(ASCII alphanumerics, underscore, and the Cyrillic block used by the
marker tables). -/
def pyIsWordChar (c : Char) : Bool :=
  (c.val ≥ 48 && c.val ≤ 57) || (c.val ≥ 65 && c.val ≤ 90) ||
  (c.val ≥ 97 && c.val ≤ 122) || c == '_' ||
  (c.val ≥ 0x400 && c.val ≤ 0x4FF) || (c.val ≥ 0x500 && c.val ≤ 0x52F)

/-- `str.lower` on the alphabets that occur in the source's marker
tables: ASCII letters, Russian Cyrillic А-Я and Ё, and the Kazakh
Cyrillic letters Ә Ғ Қ Ң Ө Ұ Ү Һ І. Other characters are unchanged. -/
def pyLowerChar (c : Char) : Char :=
  if c.val ≥ 65 && c.val ≤ 90 then Char.ofNat (c.toNat + 32)
  else if c.val ≥ 0x410 && c.val ≤ 0x42F then Char.ofNat (c.toNat + 0x20)
  else if c.val == 0x401 then Char.ofNat 0x451
  else if c.val == 0x4D8 then Char.ofNat 0x4D9
  else if c.val == 0x492 then Char.ofNat 0x493
  else if c.val == 0x49A then Char.ofNat 0x49B
  else if c.val == 0x4A2 then Char.ofNat 0x4A3
  else if c.val == 0x4E8 then Char.ofNat 0x4E9
  else if c.val == 0x4B0 then Char.ofNat 0x4B1
  else if c.val == 0x4AE then Char.ofNat 0x4AF
  else if c.val == 0x4BA then Char.ofNat 0x4BB
  else if c.val == 0x406 then Char.ofNat 0x456
  else c

def pyLower (s : String) : String := ⟨s.data.map pyLowerChar⟩

def pyStrip (s : String) : String :=
  ⟨((s.data.dropWhile pyIsSpace).reverse.dropWhile pyIsSpace).reverse⟩

/-- Does `pat` occur at the head of `l`? -/
def charsAtHead : List Char → List Char → Bool
  | [], _ => true
  | _ :: _, [] => false
  | a :: as, b :: bs => a == b && charsAtHead as bs

/-- Does `pat` occur anywhere in `l`? (Python's `pat in s`.) -/
def charsHasSub (pat : List Char) : List Char → Bool
  | [] => pat.isEmpty
  | c :: rest => charsAtHead pat (c :: rest) || charsHasSub pat rest

/-- Python substring containment `pat in s`. -/
def strContains (s pat : String) : Bool := charsHasSub pat.data s.data

/-- `any(p in lowered_text for p in phrases)` — `_has_any_phrase`. -/
def has_any_phrase (loweredText : String) (phrases : List String) : Bool :=
  phrases.any (fun p => strContains loweredText p)

/-- One character of lookahead for the `\S+` part of the URL regex. -/
def headIsNonSpace : List Char → Bool
  | [] => false
  | c :: _ => !pyIsSpace c

/-- Does the regex `https?://\S+` match at the head of `l`? -/
def urlAtHead (l : List Char) : Bool :=
  (charsAtHead "http://".data l && headIsNonSpace (l.drop 7)) ||
  (charsAtHead "https://".data l && headIsNonSpace (l.drop 8))

def hasUrlChars : List Char → Bool
  | [] => false
  | c :: rest => urlAtHead (c :: rest) || hasUrlChars rest

/-- `URL_RE.search(t)` for `URL_RE = https?://\S+` (searched on text
that the caller has already lowercased). -/
def hasUrl (t : String) : Bool := hasUrlChars t.data

/-- Does word `w` occur at the head of `l` with a `\b` boundary on both
sides, `prev` being the character just before `l` (none at the start)? -/
def wordAtHead (w l : List Char) (prev : Option Char) : Bool :=
  charsAtHead w l &&
  (match prev with
   | none => true
   | some p => !pyIsWordChar p) &&
  (match l.drop w.length with
   | [] => true
   | c :: _ => !pyIsWordChar c)

def wordSearchAux (w : List Char) : Option Char → List Char → Bool
  | _, [] => false
  | prev, c :: rest => wordAtHead w (c :: rest) prev || wordSearchAux w (some c) rest

/-- `re.search(rf"\b{w}\b", text, re.IGNORECASE)` — `_has_any_word`
for a single word (IGNORECASE modelled by lowercasing both sides,
which is position-preserving since `pyLowerChar` maps char to char). -/
def pyHasWord (text w : String) : Bool :=
  wordSearchAux (pyLower w).data none (pyLower text).data

/-! ### Domain enums (app/domain/value_objects/enums.py) -/

inductive TicketType where
  | COMPLAINT | DATA_CHANGE | CONSULTATION | CLAIM
  | APP_MALFUNCTION | FRAUD | SPAM
deriving DecidableEq, Repr

def TicketType.value : TicketType → String
  | .COMPLAINT => "Жалоба"
  | .DATA_CHANGE => "Смена данных"
  | .CONSULTATION => "Консультация"
  | .CLAIM => "Претензия"
  | .APP_MALFUNCTION => "Неработоспособность приложения"
  | .FRAUD => "Мошеннические действия"
  | .SPAM => "Спам"

inductive Sentiment where
  | POSITIVE | NEUTRAL | NEGATIVE
deriving DecidableEq, Repr

def Sentiment.value : Sentiment → String
  | .POSITIVE => "Позитивный"
  | .NEUTRAL => "Нейтральный"
  | .NEGATIVE => "Негативный"

inductive Language where
  | KZ | ENG | RU
deriving DecidableEq, Repr

def Language.value : Language → String
  | .KZ => "KZ"
  | .ENG => "ENG"
  | .RU => "RU"

inductive Segment where
  | MASS | VIP | PRIORITY
deriving DecidableEq, Repr

inductive Position where
  | SPECIALIST | SENIOR_SPECIALIST | CHIEF_SPECIALIST
deriving DecidableEq, Repr

inductive GeoStatus where
  | PENDING | RESOLVED | FAILED | ABROAD
deriving DecidableEq, Repr

/-! ### GeoPoint and haversine (app/domain/value_objects/geo_point.py)

Floats are modelled as real numbers, so the geometric functions are
noncomputable; every other definition stays executable. -/

structure GeoPoint where
  latitude : ℝ
  longitude : ℝ

noncomputable def radians (d : ℝ) : ℝ := d * Real.pi / 180

/-- `math.atan2 y x`. -/
noncomputable def atan2 (y x : ℝ) : ℝ :=
  if 0 < x then Real.arctan (y / x)
  else if x < 0 ∧ 0 ≤ y then Real.arctan (y / x) + Real.pi
  else if x < 0 ∧ y < 0 then Real.arctan (y / x) - Real.pi
  else if x = 0 ∧ 0 < y then Real.pi / 2
  else if x = 0 ∧ y < 0 then -(Real.pi / 2)
  else 0

/-- `GeoPoint.haversine_km`. -/
noncomputable def haversine_km (p other : GeoPoint) : ℝ :=
  let earth_radius_km : ℝ := 6371
  let lat1 := radians p.latitude
  let lat2 := radians other.latitude
  let dlat := radians (other.latitude - p.latitude)
  let dlon := radians (other.longitude - p.longitude)
  let a := Real.sin (dlat / 2) ^ 2 +
    Real.cos lat1 * Real.cos lat2 * Real.sin (dlon / 2) ^ 2
  let c := 2 * atan2 (Real.sqrt a) (Real.sqrt (1 - a))
  earth_radius_km * c

/-- Python's `round(x, 2)` modelled as exact real rounding to a
multiple of 1/100 (the source rounds a float; ties are immaterial to
the claims checked here). -/
noncomputable def round2 (x : ℝ) : ℝ := (round (x * 100) : ℤ) / 100

/-! ### Entities (app/domain/entities)

Database ids are `int | None` in the source, assigned on insert; the
pipeline only ever runs on persisted rows, so ids of tickets, managers
and offices are modelled as `Nat`.  `birth_date` is an opaque string. -/

structure Ticket where
  id : Nat
  guid : String
  gender : Option String := none
  birth_date : Option String := none
  description : Option String := none
  attachments : Option String := none
  segment : Segment
  country : Option String := none
  region : Option String := none
  city : Option String := none
  street : Option String := none
  building : Option String := none
  client_location : Option GeoPoint := none
  geo_status : GeoStatus := .PENDING

/-- Python truthiness of an optional string (`None` and `""` are falsy). -/
def pyTruthy : Option String → Bool
  | none => false
  | some s => !s.isEmpty

/-- Python `a or b` for an optional string `a` and default `b`. -/
def pyOr (o : Option String) (d : String) : String :=
  match o with
  | none => d
  | some s => if s.isEmpty then d else s

/-- `Ticket.build_address_string`. -/
def Ticket.build_address_string (t : Ticket) : Option String :=
  let street_pieces := [t.street, t.building].filterMap (fun o =>
    match o with
    | some p => if !p.isEmpty && !(pyStrip p).isEmpty then some (pyStrip p) else none
    | none => none)
  let street_part : Option String :=
    let j := " ".intercalate street_pieces
    if j.isEmpty then none else some j
  let parts : List (Option String) :=
    [some (pyOr t.country "Казахстан"), t.region, t.city, street_part]
  let non_empty := parts.filterMap (fun o =>
    match o with
    | some p => if !p.isEmpty && !(pyStrip p).isEmpty then some (pyStrip p) else none
    | none => none)
  if non_empty.length > 1 then some (", ".intercalate non_empty) else none

def Ticket.is_address_known (t : Ticket) : Bool := t.client_location.isSome

/-- The `kz_identifiers` table of `Ticket.is_domestic`. -/
def kz_identifiers : List String :=
  ["алматы", "almaty", "астана", "astana", "нур-султан", "nur-sultan",
   "шымкент", "shymkent", "караганда", "karaganda", "qaraghandy",
   "актобе", "aktobe", "aqtobe", "тараз", "taraz", "павлодар", "pavlodar",
   "усть-каменогорск", "ust-kamenogorsk", "oskemen", "семей", "semey",
   "атырау", "atyrau", "костанай", "kostanay", "кызылорда", "kyzylorda",
   "актау", "aktau", "aqtau", "уральск", "uralsk", "oral",
   "петропавловск", "petropavlovsk", "petropavl", "туркестан", "turkestan",
   "кокшетау", "kokshetau", "талдыкорган", "taldykorgan", "жезказган", "zhezkazgan",
   "экибастуз", "ekibastuz", "темиртау", "temirtau", "рудный", "rudny",
   "акмолинская", "akmola", "алматинская", "almaty obl", "атырауская", "atyrau obl",
   "актюбинская", "aktobe obl", "жамбылская", "zhambyl", "карагандинская", "karaganda obl",
   "костанайская", "kostanay obl", "кызылординская", "kyzylorda obl",
   "мангистауская", "mangystau", "mangystau obl.", "павлодарская", "pavlodar obl",
   "северо-казахстанская", "sko", "туркестанская", "turkestan obl",
   "восточно-казахстанская", "vko", "западная", "zko", "абайская", "abai",
   "улытауская", "ulytau", "жетысуская", "zhetysu"]

/-- `Ticket.is_domestic`. -/
def Ticket.is_domestic (t : Ticket) : Bool :=
  if pyTruthy t.country then
    pyLower (pyStrip (t.country.getD "")) == "казахстан"
  else
    let city_norm := if pyTruthy t.city then pyLower (pyStrip (t.city.getD "")) else ""
    let region_norm := if pyTruthy t.region then pyLower (pyStrip (t.region.getD "")) else ""
    kz_identifiers.any (fun identifier =>
      (!city_norm.isEmpty && strContains city_norm identifier) ||
      (!region_norm.isEmpty && strContains region_norm identifier))

structure Manager where
  id : Nat
  name : String
  position : Position
  office_id : Nat
  skills : List String := []
  current_load : Nat := 0
deriving DecidableEq, Repr

def Manager.is_chief_specialist (m : Manager) : Bool :=
  m.position == Position.CHIEF_SPECIALIST

structure Office where
  id : Nat
  name : String
  address : String
  location : Option GeoPoint := none

structure AIAnalysis where
  id : Option Nat := none
  ticket_id : Nat
  ticket_type : TicketType
  sentiment : Sentiment
  priority_score : Int
  language : Language
  summary : String
  llm_model : Option String := none
deriving DecidableEq, Repr

/-- The source's `assignment_reason` / `reason` strings interpolate a
formatted float; they are modelled structurally, carrying the same data. -/
inductive SelReason where
  | nearest (name : String) (d : ℝ)
  | fallbackHub (hub : String)
  | fallbackAll (name : String)

structure Assignment where
  id : Option Nat := none
  ticket_id : Nat
  manager_id : Nat
  office_id : Nat
  distance_km : Option ℝ := none
  assignment_reason : Option SelReason := none
  fallback_used : Bool := false
  rule_trace : Option Unit := none

/-! ### Required-skills policy (app/domain/policies/required_skills.py) -/

/-- `frozenset` of short skill codes modelled as a list used only
through membership. -/
structure SkillRequirement where
  required_skills : List String
  min_position : Option Position
deriving DecidableEq, Repr

def determine_required_skills (segment : Segment) (ticket_type : TicketType)
    (language : Language) : SkillRequirement :=
  let skills : List String := if segment = Segment.VIP ∨ segment = Segment.PRIORITY then ["VIP"] else []
  let min_position : Option Position :=
    if ticket_type = TicketType.DATA_CHANGE then some Position.CHIEF_SPECIALIST else none
  let skills :=
    if language = Language.KZ then skills ++ ["KZ"]
    else if language = Language.ENG then skills ++ ["ENG"]
    else skills
  { required_skills := skills, min_position := min_position }

def manager_satisfies (manager_skills : List String) (manager_position : Position)
    (requirement : SkillRequirement) : Bool :=
  if !(requirement.required_skills.all (fun s => manager_skills.contains s)) then
    false
  else
    match requirement.min_position with
    | some mp =>
      if mp = Position.CHIEF_SPECIALIST then
        if manager_position ≠ Position.CHIEF_SPECIALIST then false else true
      else true
    | none => true

/-! ### Round-robin policy (app/domain/policies/round_robin.py) -/

/-- The sort key `(current_load ASC, id ASC)` as a total preorder. -/
def managerKeyLe (a b : Manager) : Prop :=
  a.current_load < b.current_load ∨
    (a.current_load = b.current_load ∧ a.id ≤ b.id)

instance : DecidableRel managerKeyLe := fun a b => by
  unfold managerKeyLe; exact inferInstance

/-- Python's stable `sorted(candidates, key=lambda m: (m.current_load, m.id))`. -/
def sortManagers (l : List Manager) : List Manager := List.insertionSort managerKeyLe l

def dummyManager : Manager := { id := 0, name := "", position := .SPECIALIST, office_id := 0 }

def pick_next (candidates : List Manager) (counter : Nat) : Except String (Manager × Nat) :=
  if candidates.isEmpty then
    .error "Cannot pick from an empty candidate list"
  else
    let sorted_candidates := sortManagers candidates
    let index := counter % sorted_candidates.length
    .ok (sorted_candidates.getD index dummyManager, counter + 1)

/-! ### Office selection policy (app/domain/policies/office_selection.py) -/

def ASTANA_HUB : String := "Астана"
def ALMATY_HUB : String := "Алматы"

structure OfficeSelection where
  office : Office
  distance_km : Option ℝ
  fallback_used : Bool
  reason : SelReason

/-- Python's `min(candidates, key=lambda x: x[1])`: scans left to
right, replacing the current best only on a strictly smaller key, so
the first minimum wins. -/
noncomputable def minByDist (best : Office × ℝ) : List (Office × ℝ) → Office × ℝ
  | [] => best
  | c :: rest => minByDist (if c.2 < best.2 then c else best) rest

noncomputable def select_nearest_office (client_location : GeoPoint)
    (offices : List Office) : Except String OfficeSelection :=
  let candidates := offices.filterMap (fun o =>
    o.location.map (fun ℓ => (o, haversine_km client_location ℓ)))
  match candidates with
  | [] => .error "No offices with known locations available"
  | c :: rest =>
    let best := minByDist c rest
    .ok { office := best.1, distance_km := some (round2 best.2),
          fallback_used := false, reason := .nearest best.1.name best.2 }

/-- The `hub_map[KEY] = office` loop: the last office whose name
contains the key wins. -/
def lastSat (p : α → Bool) (l : List α) : Option α :=
  l.foldl (fun acc o => if p o then some o else acc) none

def officeIdLe (a b : Office) : Prop := a.id ≤ b.id

instance : DecidableRel officeIdLe := fun a b => by
  unfold officeIdLe; exact inferInstance

def sortOfficesById (l : List Office) : List Office := List.insertionSort officeIdLe l

def dummyOffice : Office := { id := 0, name := "", address := "" }

def select_fallback_office (counter : Nat) (offices : List Office) :
    Except String OfficeSelection :=
  match offices with
  | [] => .error "No offices available for fallback"
  | _ :: _ =>
    match lastSat (fun o => strContains o.name ASTANA_HUB) offices,
          lastSat (fun o => strContains o.name ALMATY_HUB) offices with
    | some astana, some almaty =>
      if counter % 2 = 0 then
        .ok { office := astana, distance_km := none, fallback_used := true,
              reason := .fallbackHub ASTANA_HUB }
      else
        .ok { office := almaty, distance_km := none, fallback_used := true,
              reason := .fallbackHub ALMATY_HUB }
    | _, _ =>
      let sorted_offices := sortOfficesById offices
      let chosen := sorted_offices.getD (counter % sorted_offices.length) dummyOffice
      .ok { office := chosen, distance_km := none, fallback_used := true,
            reason := .fallbackAll chosen.name }

/-! ### Classifier (app/adapters/llm/openai_adapter.py)

The deterministic parts of the adapter: marker tables, spam heuristic,
sentiment detection, the rule-based fallback classifier, the enum
mapping of a raw LLM reply, and the post-adjustment.  The HTTP retry
loop is abstracted: `some parsed` stands for the first successfully
parsed JSON reply, `none` for a missing SDK / missing API key / all
attempts failing, all of which take the heuristic path. -/

def STRONG_POSITIVE : List String :=
  ["всё решено", "все решено", "решили", "помогли",
   "всё заработало", "все заработало", "доволен", "довольна",
   "замечательно", "прекрасно", "молодцы",
   "great", "well done", "resolved", "fixed", "it works now"]

def WEAK_POSITIVE : List String :=
  ["спасибо", "спс", "рахмет", "thank you", "thanks", "благодарю",
   "благодарен", "благодарна"]

def ISSUE_MARKERS : List String :=
  ["проблем", "вопрос", "подскажите", "помогите", "как сделать",
   "как изменить", "не получается", "доступ", "нужна помощь",
   "консультация", "уточнить", "разъяснить", "не понимаю",
   "how to", "question", "help me", "issue"]

def FRAUD_MARKERS : List String :=
  ["мошенн", "fraud", "scam", "алаяқ",
   "списали деньги", "деньги пропали",
   "несанкционирован", "unauthorized"]

def BLOCKED_MARKERS : List String :=
  ["заблок", "не могу войти", "счета заблокированы",
   "account blocked", "locked out"]

def SPAM_MARKERS_WITH_URL : List String :=
  ["выгодное предложение", "специальные цены", "в наличии",
   "минимальный заказ", "отгрузка", "подберем оборудование",
   "питомник", "тюльпаны", "скидк", "купите", "закажите", "реклама"]

def SPAM_MARKERS_NO_URL : List String :=
  ["специальные цены", "минимальный заказ", "в наличии",
   "оптов", "прайс", "коммерческое предложение"]

/-- `_looks_like_spam`. -/
def looks_like_spam (text : String) : Bool :=
  let t := pyLower text
  (hasUrl t &&
    (has_any_phrase t SPAM_MARKERS_WITH_URL ||
     (t.length > 200 && strContains t "http" &&
       (strContains t "предлож" || strContains t "цена")))) ||
  has_any_phrase t SPAM_MARKERS_NO_URL

def STRONG_NEGATIVE_PHRASES : List String :=
  ["верните", "требую", "обман", "ужас", "безобраз", "недопустимо",
   "жалоб", "претенз", "прокуратур", "регулятор", "задолбал", "достали",
   "заеба", "блять", "хуй", "охуе", "пиздец", "сука", "ебан", "черт", "тварь"]

/-- `_has_strong_negative_evidence`: strong phrases, the whole word
"суд", or two consecutive exclamation marks. -/
def has_strong_negative_evidence (text : String) : Bool :=
  let t := pyLower text
  has_any_phrase t STRONG_NEGATIVE_PHRASES ||
  pyHasWord text "суд" ||
  strContains text "!!"

/-- `_detect_sentiment_markers`. -/
def detect_sentiment_markers (text : String) : Sentiment :=
  let t := pyLower text
  if looks_like_spam text then Sentiment.NEUTRAL
  else
    let has_issue := has_any_phrase t ISSUE_MARKERS
    let has_strong_pos := has_any_phrase t STRONG_POSITIVE
    let has_weak_pos := has_any_phrase t WEAK_POSITIVE || pyHasWord text "THX"
    if has_strong_negative_evidence text then Sentiment.NEGATIVE
    else if has_issue then Sentiment.NEUTRAL
    else if has_strong_pos && !has_issue then Sentiment.POSITIVE
    else if has_weak_pos then Sentiment.NEUTRAL
    else Sentiment.NEUTRAL

def URGENT_MARKERS : List String :=
  ["срочно", "немедленно", "сейчас же", "urgent", "asap", "immediately"]

def BLOCKED_URGENT_MARKERS : List String :=
  ["заблок", "не могу войти", "счета заблокированы"]

/-- `_has_urgency`. -/
def has_urgency (text : String) : Bool :=
  let t := pyLower text
  has_any_phrase t URGENT_MARKERS || has_any_phrase t BLOCKED_URGENT_MARKERS

/-- A raw LLM JSON object with the five expected fields; a missing
field is `none`.  A non-integer `priority_score` makes the source's
`int(...)` raise, which counts as a failed attempt and is covered by
the `none` reply of `analyze_ticket`. -/
structure RawReply where
  ticket_type : Option String := none
  sentiment : Option String := none
  priority_score : Option Int := none
  language : Option String := none
  summary : Option String := none
deriving DecidableEq, Repr

def ticketTypeValues : List TicketType :=
  [.COMPLAINT, .DATA_CHANGE, .CONSULTATION, .CLAIM, .APP_MALFUNCTION, .FRAUD, .SPAM]

def sentimentValues : List Sentiment := [.POSITIVE, .NEUTRAL, .NEGATIVE]

def languageValues : List Language := [.KZ, .ENG, .RU]

/-- `TICKET_TYPE_MAP.get(s)`. -/
def parseTicketType (s : String) : Option TicketType :=
  ticketTypeValues.find? (fun t => t.value == s)

/-- `SENTIMENT_MAP.get(s)`. -/
def parseSentiment (s : String) : Option Sentiment :=
  sentimentValues.find? (fun t => t.value == s)

/-- `LANGUAGE_MAP.get(s)`. -/
def parseLanguage (s : String) : Option Language :=
  languageValues.find? (fun t => t.value == s)

/-- `_map_to_analysis`. -/
def map_to_analysis (model : String) (parsed : RawReply) : AIAnalysis :=
  { id := none, ticket_id := 0,
    ticket_type := (parseTicketType (parsed.ticket_type.getD "")).getD TicketType.CONSULTATION,
    sentiment := (parseSentiment (parsed.sentiment.getD "")).getD Sentiment.NEUTRAL,
    priority_score := max 1 (min 10 (parsed.priority_score.getD 5)),
    language := (parseLanguage (parsed.language.getD "")).getD Language.RU,
    summary := parsed.summary.getD "",
    llm_model := some model }

/-- `_spam_result` (its `description` argument is unused in the source). -/
def spam_result : AIAnalysis :=
  { id := none, ticket_id := 0, ticket_type := .SPAM, sentiment := .NEUTRAL,
    priority_score := 1, language := .RU,
    summary := "Спам/реклама. Обращение не относится к поддержке Freedom Broker.",
    llm_model := some "spam-heuristic" }

/-- `_post_adjust`. -/
def post_adjust (analysis : AIAnalysis) (original_text : String) : AIAnalysis :=
  if analysis.ticket_type = TicketType.SPAM then analysis
  else
    let text := pyStrip original_text
    let t := pyLower text
    let strong_neg := has_strong_negative_evidence text
    let strong_pos := has_any_phrase t STRONG_POSITIVE
    let weak_pos_only :=
      (has_any_phrase t WEAK_POSITIVE || pyHasWord text "THX") && !strong_pos
    let is_fraud := has_any_phrase t FRAUD_MARKERS
    let is_blocked := has_any_phrase t BLOCKED_MARKERS
    let is_urgent := has_urgency text
    let analysis :=
      if is_fraud then { analysis with priority_score := max analysis.priority_score 9 }
      else if is_blocked || is_urgent then
        { analysis with priority_score := max analysis.priority_score 8 }
      else analysis
    if strong_neg then { analysis with sentiment := Sentiment.NEGATIVE }
    else if strong_pos then { analysis with sentiment := Sentiment.POSITIVE }
    else if weak_pos_only then { analysis with sentiment := Sentiment.NEUTRAL }
    else if analysis.sentiment = Sentiment.NEGATIVE then
      { analysis with sentiment := Sentiment.NEUTRAL }
    else analysis

def HEUR_KZ_MARKERS : List String :=
  ["сәлем", "қалай", "мен", "маған", "жасау", "өтініш", "рахмет"]

def HEUR_EN_MARKERS : List String :=
  ["hello", "please", "want", "need", "help", "issue", "thank you", "thanks"]

def HEUR_FRAUD : List String :=
  ["мошен", "fraud", "алаяқ", "взлом", "украли", "списали деньги"]

def HEUR_COMPLAINT : List String := ["жалоб", "complaint", "шағым"]

def HEUR_BLOCKED : List String :=
  ["заблок", "счета заблокированы", "не могу войти", "доступ"]

def HEUR_DATA_CHANGE : List String :=
  ["смена данных", "изменить", "данные", "деректер"]

def HEUR_APP : List String :=
  ["приложен", "app", "қосымша", "не работает", "ошибк"]

def HEUR_CLAIM : List String := ["претенз", "claim", "талап"]

/-- `_heuristic_fallback`. -/
def heuristic_fallback (description : String) : AIAnalysis :=
  let text := pyLower description
  if looks_like_spam description then
    { id := none, ticket_id := 0, ticket_type := .SPAM, sentiment := .NEUTRAL,
      priority_score := 1, language := .RU,
      summary := "Спам/реклама. Обращение не относится к поддержке.",
      llm_model := some "heuristic-fallback" }
  else
    let language :=
      if has_any_phrase text HEUR_KZ_MARKERS then Language.KZ
      else if has_any_phrase text HEUR_EN_MARKERS then Language.ENG
      else Language.RU
    let sentiment := detect_sentiment_markers description
    let tp : TicketType × Int :=
      if has_any_phrase text HEUR_FRAUD then (.FRAUD, 9)
      else if has_any_phrase text HEUR_COMPLAINT then (.COMPLAINT, 7)
      else if has_any_phrase text HEUR_BLOCKED then (.COMPLAINT, 8)
      else if has_any_phrase text HEUR_DATA_CHANGE then (.DATA_CHANGE, 5)
      else if has_any_phrase text HEUR_APP then (.APP_MALFUNCTION, 6)
      else if has_any_phrase text HEUR_CLAIM then (.CLAIM, 7)
      else (.CONSULTATION, 4)
    { id := none, ticket_id := 0, ticket_type := tp.1, sentiment := sentiment,
      priority_score := tp.2, language := language,
      summary := ⟨description.data.take 200⟩,
      llm_model := some "heuristic-fallback" }

/-- `OpenAIAdapter.analyze_ticket`: spam fast-path, then either the
mapped LLM reply or the heuristic fallback, both post-adjusted. -/
def analyze_ticket (model : String) (llmReply : Option RawReply)
    (description : String) : AIAnalysis :=
  if looks_like_spam description then spam_result
  else
    match llmReply with
    | some parsed => post_adjust (map_to_analysis model parsed) description
    | none => post_adjust (heuristic_fallback description) description

/-! ### Pipeline state, ports and orchestrator
(app/application/use_cases/process_ticket.py over the SQL repository
semantics of app/adapters/persistence/repositories.py)

The database is an in-memory record of row lists.  Every port call
either succeeds or raises; a raise carries the state at the failure
point, exactly as a Python exception leaves the session.  The
orchestrator catches every exception (`except Exception` in
`execute`) and converts it into an error `ProcessingResult`. -/

structure ProcessingResult where
  ticket_id : Nat
  ticket_guid : String
  assigned_manager : Option String
  assigned_office : Option String
  distance_km : Option ℝ
  fallback_used : Bool
  error : Option String := none

structure PipelineState where
  tickets : List Ticket
  offices : List Office
  managers : List Manager
  analytics : List AIAnalysis
  assignments : List Assignment
  counters : List (String × Nat)

/-- Outcome of one pipeline step: a value or a raised exception, in
both cases with the database state reached so far. -/
inductive StepRes (α : Type) where
  | ok (a : α) (st : PipelineState)
  | err (msg : String) (st : PipelineState)

/-- The collaborator ports of `ProcessTicketUseCase`, each modelled as
a state transformer that may raise. -/
structure Ports where
  analyzeTicket : String → Option String → PipelineState → StepRes AIAnalysis
  analyticsSave : AIAnalysis → PipelineState → StepRes Unit
  geocode : String → PipelineState → StepRes (Option GeoPoint)
  ticketUpdate : Ticket → PipelineState → StepRes Ticket
  officesGetAll : PipelineState → StepRes (List Office)
  managersGetByOffice : Nat → PipelineState → StepRes (List Manager)
  managersGetAll : PipelineState → StepRes (List Manager)
  incrementCounter : String → PipelineState → StepRes Nat
  assignmentSave : Assignment → PipelineState → StepRes Unit
  incrementLoad : Nat → PipelineState → StepRes Unit

/-- Step 2 of `execute`: geocode the client address and persist the
updated ticket. -/
def geoPhase (p : Ports) (t : Ticket) (st : PipelineState) : StepRes Ticket :=
  if t.is_address_known then .ok t st
  else
    match t.build_address_string with
    | some address_str =>
      if t.is_domestic then
        match p.geocode address_str st with
        | .err e st => .err e st
        | .ok (some point) st =>
          p.ticketUpdate { t with client_location := some point,
                                  geo_status := GeoStatus.RESOLVED } st
        | .ok none st =>
          p.ticketUpdate { t with geo_status := GeoStatus.FAILED } st
      else if pyTruthy t.country then
        p.ticketUpdate { t with geo_status := GeoStatus.ABROAD } st
      else
        p.ticketUpdate { t with geo_status := GeoStatus.FAILED } st
    | none =>
      if !t.is_domestic && pyTruthy t.country then
        p.ticketUpdate { t with geo_status := GeoStatus.ABROAD } st
      else
        p.ticketUpdate { t with geo_status := GeoStatus.FAILED } st

/-- Step 3 of `execute`: select the office (nearest, or 50/50 fallback
after advancing the fallback counter). -/
noncomputable def officePhase (p : Ports) (t : Ticket) (st : PipelineState) : StepRes OfficeSelection :=
  match p.officesGetAll st with
  | .err e st => .err e st
  | .ok offices st =>
    match t.client_location with
    | some loc =>
      match select_nearest_office loc offices with
      | .ok sel => .ok sel st
      | .error e => .err e st
    | none =>
      match p.incrementCounter "office-fallback-50-50" st with
      | .err e st => .err e st
      | .ok fallback_counter st =>
        match select_fallback_office fallback_counter offices with
        | .ok sel => .ok sel st
        | .error e => .err e st

/-- The composite round-robin key of step 6. -/
def rrKey (sel : OfficeSelection) (requirement : SkillRequirement)
    (analysis : AIAnalysis) : String :=
  "office-" ++ toString sel.office.id ++
  "|vip-" ++ (if requirement.required_skills.contains "VIP" then "1" else "0") ++
  "|lang-" ++ analysis.language.value ++
  "|type-" ++ analysis.ticket_type.value ++
  "|chief-" ++ (if requirement.min_position == some Position.CHIEF_SPECIALIST then "1" else "0")

/-- Steps 5-7 of `execute`: top-2 shortlist, counter advance,
round-robin pick, assignment persistence and load increment. -/
def dispatchPhase (p : Ports) (t : Ticket) (analysis : AIAnalysis)
    (requirement : SkillRequirement) (sel : OfficeSelection)
    (eligible : List Manager) (st : PipelineState) : StepRes ProcessingResult :=
  if eligible.isEmpty then
    .ok { ticket_id := t.id, ticket_guid := t.guid, assigned_manager := none,
          assigned_office := none, distance_km := none,
          fallback_used := sel.fallback_used,
          error := some "No eligible managers found" } st
  else
    let eligible_sorted := sortManagers eligible
    let top2 := eligible_sorted.take 2
    match p.incrementCounter (rrKey sel requirement analysis) st with
    | .err e st => .err e st
    | .ok counter st =>
      match pick_next top2 counter with
      | .error e => .err e st
      | .ok (chosen_manager, _) =>
        let assignment : Assignment :=
          { id := none, ticket_id := t.id, manager_id := chosen_manager.id,
            office_id := sel.office.id, distance_km := sel.distance_km,
            assignment_reason := some sel.reason,
            fallback_used := sel.fallback_used }
        match p.assignmentSave assignment st with
        | .err e st => .err e st
        | .ok _ st =>
          match p.incrementLoad chosen_manager.id st with
          | .err e st => .err e st
          | .ok _ st =>
            .ok { ticket_id := t.id, ticket_guid := t.guid,
                  assigned_manager := some chosen_manager.name,
                  assigned_office := some sel.office.name,
                  distance_km := sel.distance_km,
                  fallback_used := sel.fallback_used, error := none } st

/-- Step 4 of `execute`: requirement computation and the three
candidate-widening tiers, then dispatch. -/
def candidatePhase (p : Ports) (t : Ticket) (analysis : AIAnalysis)
    (sel : OfficeSelection) (st : PipelineState) : StepRes ProcessingResult :=
  let requirement := determine_required_skills t.segment analysis.ticket_type analysis.language
  match p.managersGetByOffice sel.office.id st with
  | .err e st => .err e st
  | .ok all_managers st =>
    let eligible := all_managers.filter (fun m =>
      manager_satisfies m.skills m.position requirement)
    if eligible.isEmpty then
      match p.managersGetAll st with
      | .err e st => .err e st
      | .ok all_managers st =>
        let eligible := all_managers.filter (fun m =>
          manager_satisfies m.skills m.position requirement)
        if eligible.isEmpty then
          match p.managersGetAll st with
          | .err e st => .err e st
          | .ok all_managers st =>
            let eligible :=
              if requirement.min_position == some Position.CHIEF_SPECIALIST then
                all_managers.filter (fun m => m.is_chief_specialist)
              else all_managers
            dispatchPhase p t analysis requirement sel eligible st
        else dispatchPhase p t analysis requirement sel eligible st
    else dispatchPhase p t analysis requirement sel eligible st

/-- The body of `ProcessTicketUseCase.execute` inside its `try`. -/
noncomputable def executeInner (p : Ports) (ticket : Ticket) (st : PipelineState) :
    StepRes ProcessingResult :=
  match p.analyzeTicket (ticket.description.getD "") ticket.attachments st with
  | .err e st => .err e st
  | .ok analysis0 st =>
    let analysis := { analysis0 with ticket_id := ticket.id }
    match p.analyticsSave analysis st with
    | .err e st => .err e st
    | .ok _ st =>
      if analysis.ticket_type = TicketType.SPAM then
        .ok { ticket_id := ticket.id, ticket_guid := ticket.guid,
              assigned_manager := none, assigned_office := none,
              distance_km := none, fallback_used := false, error := none } st
      else
        match geoPhase p ticket st with
        | .err e st => .err e st
        | .ok ticket st =>
          match officePhase p ticket st with
          | .err e st => .err e st
          | .ok office_sel st =>
            candidatePhase p ticket analysis office_sel st

/-- `ProcessTicketUseCase.execute`: the `try`/`except Exception`
wrapper around `executeInner`. -/
noncomputable def execute (p : Ports) (ticket : Ticket) (st : PipelineState) :
    ProcessingResult × PipelineState :=
  match executeInner p ticket st with
  | .ok r st => (r, st)
  | .err e st =>
    ({ ticket_id := ticket.id, ticket_guid := ticket.guid,
       assigned_manager := none, assigned_office := none,
       distance_km := none, fallback_used := false, error := some e }, st)

/-! ### SQL repository semantics (app/adapters/persistence/repositories.py)

`ticket_analytics.ticket_id` and `assignments.ticket_id` are UNIQUE
columns (models.py), so inserting a second row for the same ticket
raises an integrity error. -/

def dupAnalyticsMsg : String :=
  "duplicate key value violates unique constraint on ticket_analytics.ticket_id"

def dupAssignmentMsg : String :=
  "duplicate key value violates unique constraint on assignments.ticket_id"

/-- `SqlAnalyticsRepository.save`. -/
def sqlAnalyticsSave (a : AIAnalysis) (st : PipelineState) : StepRes Unit :=
  if st.analytics.any (fun x => x.ticket_id == a.ticket_id) then
    .err dupAnalyticsMsg st
  else
    .ok () { st with analytics := st.analytics ++ [a] }

/-- `SqlAssignmentRepository.save`. -/
def sqlAssignmentSave (a : Assignment) (st : PipelineState) : StepRes Unit :=
  if st.assignments.any (fun x => x.ticket_id == a.ticket_id) then
    .err dupAssignmentMsg st
  else
    .ok () { st with assignments := st.assignments ++ [a] }

/-- `SqlTicketRepository.update`: rewrite the coordinate and status
columns of the row with the ticket's id. -/
def sqlTicketUpdate (t : Ticket) (st : PipelineState) : StepRes Ticket :=
  .ok t { st with tickets := st.tickets.map (fun row =>
    if row.id == t.id then
      { row with client_location := t.client_location, geo_status := t.geo_status }
    else row) }

/-- `SqlOfficeRepository.get_all` (`ORDER BY id`). -/
def sqlOfficesGetAll (st : PipelineState) : StepRes (List Office) :=
  .ok (sortOfficesById st.offices) st

/-- `SqlManagerRepository.get_by_office` (no ORDER BY: stored order). -/
def sqlManagersGetByOffice (office_id : Nat) (st : PipelineState) : StepRes (List Manager) :=
  .ok (st.managers.filter (fun m => m.office_id == office_id)) st

def managerIdLe (a b : Manager) : Prop := a.id ≤ b.id

instance : DecidableRel managerIdLe := fun a b => by
  unfold managerIdLe; exact inferInstance

/-- `SqlManagerRepository.get_all` (`ORDER BY id`). -/
def sqlManagersGetAll (st : PipelineState) : StepRes (List Manager) :=
  .ok (List.insertionSort managerIdLe st.managers) st

/-- `SqlRoundRobinRepository.increment_counter`: atomically advance
and return the previous value; a missing key is created with counter 1
and 0 is returned. -/
def sqlIncrementCounter (rr_key : String) (st : PipelineState) : StepRes Nat :=
  match st.counters.find? (fun kv => kv.1 == rr_key) with
  | none =>
    .ok 0 { st with counters := st.counters ++ [(rr_key, 1)] }
  | some kv =>
    .ok kv.2 { st with counters := st.counters.map (fun entry =>
      if entry.1 == rr_key then (entry.1, entry.2 + 1) else entry) }

/-- `SqlManagerRepository.increment_load`. -/
def sqlIncrementLoad (manager_id : Nat) (st : PipelineState) : StepRes Unit :=
  .ok () { st with managers := st.managers.map (fun m =>
    if m.id == manager_id then { m with current_load := m.current_load + 1 } else m) }

/-- The production wiring: the two external ports (classifier and
geocoder) are arbitrary pure behaviours, persistence is the SQL
semantics above. -/
def mkPorts (llm : String → Option String → Except String AIAnalysis)
    (geo : String → Except String (Option GeoPoint)) : Ports where
  analyzeTicket := fun d att st =>
    match llm d att with
    | .ok a => .ok a st
    | .error e => .err e st
  analyticsSave := sqlAnalyticsSave
  geocode := fun addr st =>
    match geo addr with
    | .ok pt => .ok pt st
    | .error e => .err e st
  ticketUpdate := sqlTicketUpdate
  officesGetAll := sqlOfficesGetAll
  managersGetByOffice := sqlManagersGetByOffice
  managersGetAll := sqlManagersGetAll
  incrementCounter := sqlIncrementCounter
  assignmentSave := sqlAssignmentSave
  incrementLoad := sqlIncrementLoad

/-! ### Auxiliary definitions used only to state the theorems -/

/-- The database state a step leaves behind, on success or on raise. -/
def StepRes.state : StepRes α → PipelineState
  | .ok _ st => st
  | .err _ st => st

/-- The sequence of managers chosen by `pick_next` on a fixed
candidate list for the successive counters `0, 1, …, n-1`. -/
def picksUpTo (candidates : List Manager) (n : Nat) : List Manager :=
  (List.range n).filterMap (fun c =>
    match pick_next candidates c with
    | .ok (m, _) => some m
    | .error _ => none)

instance : IsTotal Manager managerKeyLe where
  total a b := by
    unfold managerKeyLe
    rcases Nat.lt_trichotomy a.current_load b.current_load with h | h | h
    · exact Or.inl (Or.inl h)
    · rcases Nat.le_total a.id b.id with h2 | h2
      · exact Or.inl (Or.inr ⟨h, h2⟩)
      · exact Or.inr (Or.inr ⟨h.symm, h2⟩)
    · exact Or.inr (Or.inl h)

instance : IsTrans Manager managerKeyLe where
  trans a b c hab hbc := by
    unfold managerKeyLe at *
    rcases hab with h1 | ⟨h1, h1'⟩ <;> rcases hbc with h2 | ⟨h2, h2'⟩
    · exact Or.inl (h1.trans h2)
    · exact Or.inl (h2 ▸ h1)
    · exact Or.inl (h1 ▸ h2)
    · exact Or.inr ⟨h1.trans h2, h1'.trans h2'⟩

/-! ### Concrete inputs for witnesses and counterexamples -/

/-- A spam classifier verdict, as the LLM port returns it. -/
def exSpamAnalysis : AIAnalysis :=
  { ticket_id := 0, ticket_type := .SPAM, sentiment := .NEUTRAL,
    priority_score := 1, language := .RU, summary := "advertising" }

/-- A non-spam classifier verdict. -/
def exConsultAnalysis : AIAnalysis :=
  { ticket_id := 0, ticket_type := .CONSULTATION, sentiment := .NEUTRAL,
    priority_score := 4, language := .RU, summary := "q" }

def exTicket : Ticket := { id := 1, guid := "ticket-1", segment := .MASS }

/-- An analytics row already persisted for `exTicket`. -/
def exAnalyticsRow : AIAnalysis :=
  { ticket_id := 1, ticket_type := .CONSULTATION, sentiment := .NEUTRAL,
    priority_score := 4, language := .RU, summary := "q" }

/-- An assignment row already persisted for `exTicket`. -/
def exAssignmentRow : Assignment := { ticket_id := 1, manager_id := 1, office_id := 1 }

/-- A state in which `exTicket` was already fully processed. -/
def exProcessedState : PipelineState :=
  { tickets := [exTicket], offices := [], managers := [],
    analytics := [exAnalyticsRow], assignments := [exAssignmentRow], counters := [] }

/-- A state in which `exTicket` was not yet processed. -/
def exFreshState : PipelineState :=
  { tickets := [exTicket], offices := [], managers := [],
    analytics := [], assignments := [], counters := [] }

def exLlmOk (a : AIAnalysis) : String → Option String → Except String AIAnalysis :=
  fun _ _ => .ok a

def exLlmBoom : String → Option String → Except String AIAnalysis :=
  fun _ _ => .error "boom"

def exGeoNone : String → Except String (Option GeoPoint) := fun _ => .ok none

/-- Two offices at the same coordinates as the client, listed with the
larger id first. -/
noncomputable def exOfficeB : Office :=
  { id := 2, name := "B", address := "", location := some ⟨43, 76⟩ }

noncomputable def exOfficeA : Office :=
  { id := 1, name := "A", address := "", location := some ⟨43, 76⟩ }

noncomputable def exClient : GeoPoint := ⟨43, 76⟩

def exOfficeNoLoc : Office := { id := 5, name := "C", address := "" }

def exHubAstana : Office := { id := 11, name := "ЦО Астана", address := "" }

def exHubAlmaty : Office := { id := 12, name := "ЦО Алматы", address := "" }

def exMgrA : Manager := { id := 1, name := "A", position := .SPECIALIST, office_id := 1 }

def exMgrB : Manager := { id := 2, name := "B", position := .SPECIALIST, office_id := 1 }

/-- A raw LLM reply whose enum fields are all unrecognised and whose
priority is out of range. -/
def exRawBad : RawReply :=
  { ticket_type := some "mystery", sentiment := some "meh",
    priority_score := some 42, language := some "FR", summary := some "s" }

/-! ## Theorems -/

/-- C7: `determine_required_skills` is additive over its rules — the
required set contains "VIP" iff the segment is VIP or Priority, "KZ"
iff the language is KZ, "ENG" iff the language is ENG (RU adds
nothing, and no other skill ever appears), and the minimum rank is
Chief Specialist iff the type is DataChange; `manager_satisfies` holds
iff the required skills are a subset of the manager's and, when the
requirement demands Chief Specialist, the manager has that rank. -/
theorem c7_required_skills (segment : Segment) (ticket_type : TicketType)
    (language : Language) (skills : List String) (pos : Position)
    (req : SkillRequirement) :
    (("VIP" ∈ (determine_required_skills segment ticket_type language).required_skills) ↔
      (segment = Segment.VIP ∨ segment = Segment.PRIORITY)) ∧
    (("KZ" ∈ (determine_required_skills segment ticket_type language).required_skills) ↔
      language = Language.KZ) ∧
    (("ENG" ∈ (determine_required_skills segment ticket_type language).required_skills) ↔
      language = Language.ENG) ∧
    (∀ s ∈ (determine_required_skills segment ticket_type language).required_skills,
      s = "VIP" ∨ s = "KZ" ∨ s = "ENG") ∧
    ((determine_required_skills segment ticket_type language).min_position =
        some Position.CHIEF_SPECIALIST ↔ ticket_type = TicketType.DATA_CHANGE) ∧
    (manager_satisfies skills pos req = true ↔
      ((∀ s ∈ req.required_skills, s ∈ skills) ∧
        (req.min_position = some Position.CHIEF_SPECIALIST →
          pos = Position.CHIEF_SPECIALIST))) := by
  have hsub : (req.required_skills.all (fun s => skills.contains s) = true) ↔
      ∀ s ∈ req.required_skills, s ∈ skills := by
    rw [List.all_eq_true]
    constructor
    · intro h s hs; exact List.elem_iff.mp (h s hs)
    · intro h s hs; exact List.elem_iff.mpr (h s hs)
  refine ⟨?_, ?_, ?_, ?_, ?_, ?_⟩
  · cases segment <;> cases ticket_type <;> cases language <;> decide
  · cases segment <;> cases ticket_type <;> cases language <;> decide
  · cases segment <;> cases ticket_type <;> cases language <;> decide
  · cases segment <;> cases ticket_type <;> cases language <;> decide
  · cases segment <;> cases ticket_type <;> cases language <;> decide
  · unfold manager_satisfies
    cases hall : req.required_skills.all (fun s => skills.contains s) with
    | false =>
      simp only [hall, Bool.not_false, if_true]
      constructor
      · intro h; exact absurd h (by simp)
      · rintro ⟨h, _⟩
        rw [hsub.mpr h] at hall
        exact absurd hall (by simp)
    | true =>
      simp only [hall, Bool.not_true, if_false]
      have hmem := hsub.mp hall
      cases hmp : req.min_position with
      | none => exact iff_of_true rfl ⟨hmem, fun h => Option.noConfusion h⟩
      | some p =>
        cases p with
        | CHIEF_SPECIALIST =>
          by_cases hpos : pos = Position.CHIEF_SPECIALIST
          · exact iff_of_true (by simp [hpos]) ⟨hmem, fun _ => hpos⟩
          · refine iff_of_false (by simp [hpos]) ?_
            rintro ⟨_, himp⟩
            exact hpos (himp rfl)
        | SPECIALIST =>
          exact iff_of_true (by simp) ⟨hmem, fun h => absurd h (by decide)⟩
        | SENIOR_SPECIALIST =>
          exact iff_of_true (by simp) ⟨hmem, fun h => absurd h (by decide)⟩

/-- C7 witness: a VIP ticket in Kazakh requires both "VIP" and "KZ",
and a manager carrying both skills satisfies the requirement. -/
theorem c7_required_skills_witness :
    ("VIP" ∈ (determine_required_skills Segment.VIP TicketType.CONSULTATION
        Language.KZ).required_skills) ∧
    ("KZ" ∈ (determine_required_skills Segment.VIP TicketType.CONSULTATION
        Language.KZ).required_skills) ∧
    manager_satisfies ["VIP", "KZ"] Position.SPECIALIST
      (determine_required_skills Segment.VIP TicketType.CONSULTATION Language.KZ) = true := by
  refine ⟨?_, ?_, ?_⟩
  · exact (c7_required_skills Segment.VIP TicketType.CONSULTATION Language.KZ
      ["VIP", "KZ"] Position.SPECIALIST
      (determine_required_skills Segment.VIP TicketType.CONSULTATION Language.KZ)).1.mpr
      (Or.inl rfl)
  · exact (c7_required_skills Segment.VIP TicketType.CONSULTATION Language.KZ
      ["VIP", "KZ"] Position.SPECIALIST
      (determine_required_skills Segment.VIP TicketType.CONSULTATION Language.KZ)).2.1.mpr rfl
  · exact (c7_required_skills Segment.VIP TicketType.CONSULTATION Language.KZ
      ["VIP", "KZ"] Position.SPECIALIST
      (determine_required_skills Segment.VIP TicketType.CONSULTATION Language.KZ)).2.2.2.2.2.mpr
      ⟨by decide, by decide⟩

theorem sortManagers_length (l : List Manager) : (sortManagers l).length = l.length :=
  (List.perm_insertionSort managerKeyLe l).length_eq

theorem pick_next_nonempty (candidates : List Manager) (counter : Nat)
    (h : candidates ≠ []) :
    pick_next candidates counter =
      .ok ((sortManagers candidates).getD (counter % candidates.length) dummyManager,
           counter + 1) := by
  unfold pick_next
  have hne : candidates.isEmpty = false := by
    cases candidates with
    | nil => exact absurd rfl h
    | cons a l => rfl
  rw [hne]
  simp only [Bool.false_eq_true, if_false]
  rw [sortManagers_length]

theorem filterMap_all_some {α β : Type} (F : α → Option β) (f : α → β)
    (h : ∀ a, F a = some (f a)) : ∀ l : List α, l.filterMap F = l.map f := by
  intro l
  induction l with
  | nil => rfl
  | cons a t ih => simp [List.filterMap_cons, h a, ih]

theorem picksUpTo_eq (candidates : List Manager) (h : candidates ≠ []) :
    picksUpTo candidates (2 * candidates.length) =
      sortManagers candidates ++ sortManagers candidates := by
  unfold picksUpTo
  rw [filterMap_all_some _
    (fun c => (sortManagers candidates).getD (c % candidates.length) dummyManager)
    (fun c => by rw [pick_next_nonempty candidates c h])]
  have h0 : List.map
      (fun c => (sortManagers candidates).getD (c % candidates.length) dummyManager)
      (List.range candidates.length) = sortManagers candidates := by
    apply List.ext_getElem
    · simp [sortManagers_length]
    · intro i h1 h2
      have hi : i < candidates.length := by
        rw [sortManagers_length] at h2; exact h2
      simp only [List.getElem_map, List.getElem_range]
      rw [Nat.mod_eq_of_lt hi]
      exact List.getD_eq_getElem _ _ (by rwa [sortManagers_length])
  have h1 : List.map
      (fun c => (sortManagers candidates).getD ((candidates.length + c) % candidates.length)
        dummyManager)
      (List.range candidates.length) = sortManagers candidates := by
    apply List.ext_getElem
    · simp [sortManagers_length]
    · intro i h1 h2
      have hi : i < candidates.length := by
        rw [sortManagers_length] at h2; exact h2
      simp only [List.getElem_map, List.getElem_range]
      rw [Nat.add_mod_left, Nat.mod_eq_of_lt hi]
      exact List.getD_eq_getElem _ _ (by rwa [sortManagers_length])
  rw [two_mul, List.range_add, List.map_append, List.map_map, h0]
  congr 1

/-- C5: `pick_next` on a non-empty candidate list returns the manager
at index `counter % length` of the candidates stably sorted by
`(current_load asc, id asc)` together with `counter + 1`; the sorted
list is sorted for that key and a permutation of the input; starting
from counter 0, the `2·N` successive picks are the sorted list twice,
so every candidate is picked exactly twice; the empty list raises. -/
theorem c5_round_robin (candidates : List Manager) (counter : Nat) :
    (pick_next [] counter = .error "Cannot pick from an empty candidate list") ∧
    (candidates ≠ [] →
      pick_next candidates counter =
        .ok ((sortManagers candidates).getD (counter % candidates.length) dummyManager,
             counter + 1)) ∧
    (List.Sorted managerKeyLe (sortManagers candidates) ∧
      (sortManagers candidates).Perm candidates) ∧
    (candidates ≠ [] →
      picksUpTo candidates (2 * candidates.length) =
        sortManagers candidates ++ sortManagers candidates) ∧
    (candidates ≠ [] → ∀ m : Manager,
      (picksUpTo candidates (2 * candidates.length)).count m = 2 * candidates.count m) := by
  refine ⟨rfl, pick_next_nonempty candidates counter,
    ⟨List.sorted_insertionSort managerKeyLe candidates,
     List.perm_insertionSort managerKeyLe candidates⟩,
    picksUpTo_eq candidates, ?_⟩
  intro h m
  have hc : List.count m (sortManagers candidates) = List.count m candidates :=
    (List.perm_insertionSort managerKeyLe candidates).count_eq m
  rw [picksUpTo_eq candidates h, List.count_append, hc, two_mul]

/-- C5 witness: two equal-load managers listed as `[id 2, id 1]` are
picked in the order `1, 2, 1, 2` over four successive counters. -/
theorem c5_round_robin_witness :
    picksUpTo [exMgrB, exMgrA] 4 = [exMgrA, exMgrB, exMgrA, exMgrB] := by
  have h := (c5_round_robin [exMgrB, exMgrA] 0).2.2.2.1 (by decide)
  calc picksUpTo [exMgrB, exMgrA] 4
      = sortManagers [exMgrB, exMgrA] ++ sortManagers [exMgrB, exMgrA] := h
    _ = [exMgrA, exMgrB, exMgrA, exMgrB] := by decide

theorem foldl_lastSat {α : Type} (p : α → Bool) : ∀ (l : List α) (acc : Option α),
    l.foldl (fun a o => if p o then some o else a) acc =
      ((l.filter p).getLast?).elim acc some := by
  intro l
  induction l with
  | nil => intro acc; rfl
  | cons o rest ih =>
    intro acc
    simp only [List.foldl_cons]
    by_cases hp : p o = true
    · rw [if_pos hp, ih]
      cases hf : rest.filter p with
      | nil => simp [List.filter_cons, hp, hf]
      | cons x xs =>
        have hy : ∃ y, (x :: xs).getLast? = some y := by
          cases hgl : (x :: xs).getLast? with
          | none => exact absurd hgl (by simp)
          | some y => exact ⟨y, rfl⟩
        obtain ⟨y, hy⟩ := hy
        simp [List.filter_cons, hp, hf, List.getLast?_cons_cons, hy]
    · rw [if_neg hp, ih]
      simp [List.filter_cons, hp]

theorem lastSat_eq_filter_getLast {α : Type} (p : α → Bool) (l : List α) :
    lastSat p l = (l.filter p).getLast? := by
  rw [lastSat, foldl_lastSat]
  rcases h : (l.filter p).getLast? with _ | x <;> simp [h]

theorem sortOfficesById_length (l : List Office) : (sortOfficesById l).length = l.length :=
  (List.perm_insertionSort officeIdLe l).length_eq

/-- C6: `select_fallback_office` with both hub offices present picks
the Астана hub on an even counter and the Алматы hub on an odd one;
when at least one hub is missing it picks index `counter % length` of
the offices sorted by id; the empty list raises. -/
theorem c6_fallback_office (counter : Nat) (offices : List Office) :
    (select_fallback_office counter ([] : List Office) =
      .error "No offices available for fallback") ∧
    (∀ ha hb : Office,
      offices.filter (fun o => strContains o.name ASTANA_HUB) = [ha] →
      offices.filter (fun o => strContains o.name ALMATY_HUB) = [hb] →
      ∃ sel, select_fallback_office counter offices = .ok sel ∧
        sel.office = (if counter % 2 = 0 then ha else hb) ∧
        sel.distance_km = none ∧ sel.fallback_used = true) ∧
    ((offices.filter (fun o => strContains o.name ASTANA_HUB) = [] ∨
      offices.filter (fun o => strContains o.name ALMATY_HUB) = []) →
      offices ≠ [] →
      ∃ sel, select_fallback_office counter offices = .ok sel ∧
        sel.office = (sortOfficesById offices).getD (counter % offices.length) dummyOffice ∧
        sel.distance_km = none ∧ sel.fallback_used = true) := by
  refine ⟨rfl, ?_, ?_⟩
  · intro ha hb hfa hfb
    cases offices with
    | nil => rw [List.filter_nil] at hfa; exact absurd hfa (by simp)
    | cons o rest =>
      have e1 : lastSat (fun x => strContains x.name ASTANA_HUB) (o :: rest) = some ha := by
        rw [lastSat_eq_filter_getLast, hfa]; rfl
      have e2 : lastSat (fun x => strContains x.name ALMATY_HUB) (o :: rest) = some hb := by
        rw [lastSat_eq_filter_getLast, hfb]; rfl
      unfold select_fallback_office
      simp only [e1, e2]
      by_cases hc : counter % 2 = 0
      · rw [if_pos hc, if_pos hc]
        exact ⟨_, rfl, rfl, rfl, rfl⟩
      · rw [if_neg hc, if_neg hc]
        exact ⟨_, rfl, rfl, rfl, rfl⟩
  · intro hone hne
    cases offices with
    | nil => exact absurd rfl hne
    | cons o rest =>
      unfold select_fallback_office
      have hlen : (sortOfficesById (o :: rest)).length = (o :: rest).length :=
        sortOfficesById_length (o :: rest)
      rcases hone with hfa | hfb
      · have e1 : lastSat (fun x => strContains x.name ASTANA_HUB) (o :: rest) = none := by
          rw [lastSat_eq_filter_getLast, hfa]; rfl
        rcases e2 : lastSat (fun x => strContains x.name ALMATY_HUB) (o :: rest) with _ | b2 <;>
          simp only [e1, e2] <;>
          exact ⟨_, rfl, by rw [hlen], rfl, rfl⟩
      · have e2 : lastSat (fun x => strContains x.name ALMATY_HUB) (o :: rest) = none := by
          rw [lastSat_eq_filter_getLast, hfb]; rfl
        rcases e1 : lastSat (fun x => strContains x.name ASTANA_HUB) (o :: rest) with _ | a2 <;>
          simp only [e1, e2] <;>
          exact ⟨_, rfl, by rw [hlen], rfl, rfl⟩

/-- C6 witness: with both hubs present and counter 0 (even), the
Астана hub is selected, with no distance and `fallback_used`. -/
theorem c6_fallback_office_witness :
    ∃ sel, select_fallback_office 0 [exHubAstana, exHubAlmaty] = .ok sel ∧
      sel.office = (if 0 % 2 = 0 then exHubAstana else exHubAlmaty) ∧
      sel.distance_km = none ∧ sel.fallback_used = true :=
  (c6_fallback_office 0 [exHubAstana, exHubAlmaty]).2.1 exHubAstana exHubAlmaty rfl rfl

theorem minByDist_cases : ∀ (l : List (Office × ℝ)) (b : Office × ℝ),
    minByDist b l = b ∨ (minByDist b l ∈ l ∧ (minByDist b l).2 < b.2) := by
  intro l
  induction l with
  | nil => intro b; exact Or.inl rfl
  | cons c rest ih =>
    intro b
    simp only [minByDist]
    by_cases h : c.2 < b.2
    · rw [if_pos h]
      rcases ih c with h1 | ⟨h1, h2⟩
      · right
        refine ⟨?_, ?_⟩
        · rw [h1]; exact List.mem_cons_self c rest
        · rw [h1]; exact h
      · exact Or.inr ⟨List.mem_cons_of_mem c h1, h2.trans h⟩
    · rw [if_neg h]
      rcases ih b with h1 | ⟨h1, h2⟩
      · exact Or.inl h1
      · exact Or.inr ⟨List.mem_cons_of_mem c h1, h2⟩

theorem minByDist_le : ∀ (l : List (Office × ℝ)) (b x : Office × ℝ),
    x ∈ b :: l → (minByDist b l).2 ≤ x.2 := by
  intro l
  induction l with
  | nil =>
    intro b x hx
    rcases List.mem_singleton.mp hx with rfl
    exact le_refl _
  | cons c rest ih =>
    intro b x hx
    simp only [minByDist]
    by_cases h : c.2 < b.2
    · rw [if_pos h]
      rcases List.mem_cons.mp hx with rfl | hx'
      · exact (ih c c (List.mem_cons_self c rest)).trans h.le
      · exact ih c x hx'
    · rw [if_neg h]
      have hbc : b.2 ≤ c.2 := le_of_not_lt h
      rcases List.mem_cons.mp hx with rfl | hx'
      · exact ih x x (List.mem_cons_self x rest)
      · rcases List.mem_cons.mp hx' with rfl | hx''
        · exact (ih b b (List.mem_cons_self b rest)).trans hbc
        · exact ih b x (List.mem_cons_of_mem b hx'')

theorem minByDist_first : ∀ (l : List (Office × ℝ)) (b : Office × ℝ),
    List.Pairwise (fun x y => x.1.id < y.1.id) (b :: l) →
    ∀ x ∈ b :: l, x.2 = (minByDist b l).2 → (minByDist b l).1.id ≤ x.1.id := by
  intro l
  induction l with
  | nil =>
    intro b _ x hx _
    rcases List.mem_singleton.mp hx with rfl
    exact le_refl _
  | cons c rest ih =>
    intro b hpw x hx heq
    simp only [minByDist] at heq ⊢
    by_cases h : c.2 < b.2
    · rw [if_pos h] at heq ⊢
      rcases List.mem_cons.mp hx with rfl | hx'
      · exfalso
        have hle : (minByDist c rest).2 ≤ c.2 :=
          minByDist_le rest c c (List.mem_cons_self c rest)
        rw [← heq] at hle
        exact absurd (hle.trans_lt h) (lt_irrefl _)
      · exact ih c hpw.tail x hx' heq
    · rw [if_neg h] at heq ⊢
      have hsub : List.Pairwise (fun x y => x.1.id < y.1.id) (b :: rest) := by
        refine List.Pairwise.sublist ?_ hpw
        exact List.Sublist.cons₂ b (List.sublist_cons_self c rest)
      rcases List.mem_cons.mp hx with rfl | hx'
      · exact ih x hsub x (List.mem_cons_self x rest) heq
      · rcases List.mem_cons.mp hx' with rfl | hx''
        · rcases minByDist_cases rest b with h1 | ⟨_, h2⟩
          · rw [h1]
            exact (List.pairwise_cons.mp hpw).1 x (List.mem_cons_self x rest) |>.le
          · exfalso
            rw [← heq] at h2
            exact h h2
        · exact ih b hsub x (List.mem_cons_of_mem b hx'') heq

/-- C3 (amended): `select_nearest_office` returns an office with known
coordinates whose haversine distance to the client is minimal among
the located offices, and raises when no office has coordinates; ties
are broken by the earliest position in the input list, so when the
offices are listed in strictly ascending id order (as the repository's
`get_all` provides them) the smallest id wins. -/
theorem c3_nearest_office (client : GeoPoint) (offices : List Office) :
    ((∀ o ∈ offices, o.location = none) →
      select_nearest_office client offices =
        .error "No offices with known locations available") ∧
    (∀ sel, select_nearest_office client offices = .ok sel →
      sel.fallback_used = false ∧ sel.office ∈ offices ∧
      ∃ ℓ, sel.office.location = some ℓ ∧
        ∀ o ∈ offices, ∀ ℓo, o.location = some ℓo →
          haversine_km client ℓ ≤ haversine_km client ℓo) ∧
    (List.Pairwise (fun a b => a.id < b.id) offices →
      ∀ sel, select_nearest_office client offices = .ok sel →
      ∃ ℓ, sel.office.location = some ℓ ∧
        ∀ o ∈ offices, ∀ ℓo, o.location = some ℓo →
          haversine_km client ℓo = haversine_km client ℓ →
          sel.office.id ≤ o.id) := by
  have hmem_cand : ∀ x ∈ offices.filterMap (fun o =>
      o.location.map (fun ℓ => (o, haversine_km client ℓ))),
      x.1 ∈ offices ∧ ∃ ℓ, x.1.location = some ℓ ∧ x.2 = haversine_km client ℓ := by
    intro x hx
    obtain ⟨o, ho, hfo⟩ := List.mem_filterMap.mp hx
    cases hloc : o.location with
    | none => rw [hloc] at hfo; exact absurd hfo (by simp)
    | some ℓ =>
      rw [hloc] at hfo
      simp only [Option.map_some'] at hfo
      cases hfo
      exact ⟨ho, ⟨ℓ, hloc, rfl⟩⟩
  have hcand_mem : ∀ o ∈ offices, ∀ ℓo, o.location = some ℓo →
      (o, haversine_km client ℓo) ∈ offices.filterMap (fun o =>
        o.location.map (fun ℓ => (o, haversine_km client ℓ))) := by
    intro o ho ℓo hloc
    exact List.mem_filterMap.mpr ⟨o, ho, by rw [hloc]; rfl⟩
  refine ⟨?_, ?_, ?_⟩
  · intro hall
    have hnil : offices.filterMap (fun o =>
        o.location.map (fun ℓ => (o, haversine_km client ℓ))) = [] := by
      rw [List.filterMap_eq_nil_iff]
      intro o ho
      rw [hall o ho]
      rfl
    unfold select_nearest_office
    rw [hnil]
  · intro sel hsel
    unfold select_nearest_office at hsel
    rcases hcand : offices.filterMap (fun o =>
        o.location.map (fun ℓ => (o, haversine_km client ℓ))) with _ | ⟨c, rest⟩
    · rw [hcand] at hsel; exact absurd hsel (by simp)
    · rw [hcand] at hsel
      simp only [Except.ok.injEq] at hsel
      have hbestmem : minByDist c rest ∈ c :: rest := by
        rcases minByDist_cases rest c with h1 | ⟨h1, _⟩
        · rw [h1]; exact List.mem_cons_self c rest
        · exact List.mem_cons_of_mem c h1
      rw [← hcand] at hbestmem
      obtain ⟨hoff, ℓ, hloc, hdist⟩ := hmem_cand _ hbestmem
      subst hsel
      refine ⟨rfl, hoff, ℓ, hloc, ?_⟩
      intro o ho ℓo holoc
      have hpairmem : (o, haversine_km client ℓo) ∈ c :: rest := by
        rw [← hcand]; exact hcand_mem o ho ℓo holoc
      have := minByDist_le rest c (o, haversine_km client ℓo) hpairmem
      rw [hdist] at this
      exact this
  · intro hpw sel hsel
    unfold select_nearest_office at hsel
    rcases hcand : offices.filterMap (fun o =>
        o.location.map (fun ℓ => (o, haversine_km client ℓ))) with _ | ⟨c, rest⟩
    · rw [hcand] at hsel; exact absurd hsel (by simp)
    · rw [hcand] at hsel
      simp only [Except.ok.injEq] at hsel
      have hbestmem : minByDist c rest ∈ c :: rest := by
        rcases minByDist_cases rest c with h1 | ⟨h1, _⟩
        · rw [h1]; exact List.mem_cons_self c rest
        · exact List.mem_cons_of_mem c h1
      have hbm' := hbestmem
      rw [← hcand] at hbm'
      obtain ⟨hoff, ℓ, hloc, hdist⟩ := hmem_cand _ hbm'
      subst hsel
      refine ⟨ℓ, hloc, ?_⟩
      intro o ho ℓo holoc heq
      have hpwc : List.Pairwise (fun x y : Office × ℝ => x.1.id < y.1.id) (c :: rest) := by
        rw [← hcand]
        rw [List.pairwise_filterMap]
        refine hpw.imp_of_mem ?_
        intro a b _ _ hab
        intro x hx y hy
        cases ha : a.location with
        | none => rw [ha] at hx; exact absurd hx (by simp)
        | some ℓa =>
          rw [ha] at hx
          cases hb : b.location with
          | none => rw [hb] at hy; exact absurd hy (by simp)
          | some ℓb =>
            rw [hb] at hy
            simp only [Option.map_some', Option.mem_def, Option.some.injEq] at hx hy
            rw [← hx, ← hy]
            exact hab
      have hpairmem : (o, haversine_km client ℓo) ∈ c :: rest := by
        rw [← hcand]; exact hcand_mem o ho ℓo holoc
      have hfirst := minByDist_first rest c hpwc (o, haversine_km client ℓo) hpairmem
        (by rw [← hdist] at heq; exact heq)
      exact hfirst

/-- C3 counterexample: two offices at exactly the client's coordinates
(equidistant), listed as ids `[2, 1]`; the policy returns id 2, not
the smallest id 1, because Python's `min` keeps the first minimum in
list order. -/
theorem c3_nearest_office_counterexample :
    ∃ sel, select_nearest_office exClient [exOfficeB, exOfficeA] = Except.ok sel ∧
      sel.office = exOfficeB ∧ exOfficeB.id = 2 ∧ exOfficeA.id = 1 ∧
      exOfficeA ∈ [exOfficeB, exOfficeA] ∧
      exOfficeA.location = exOfficeB.location := by
  have hcand : [exOfficeB, exOfficeA].filterMap (fun o =>
      o.location.map (fun ℓ => (o, haversine_km exClient ℓ))) =
      [(exOfficeB, haversine_km exClient ⟨43, 76⟩),
       (exOfficeA, haversine_km exClient ⟨43, 76⟩)] := rfl
  have hmin : minByDist (exOfficeB, haversine_km exClient ⟨43, 76⟩)
      [(exOfficeA, haversine_km exClient ⟨43, 76⟩)] =
      (exOfficeB, haversine_km exClient ⟨43, 76⟩) := by
    simp only [minByDist]
    rw [if_neg (lt_irrefl _)]
  have hred : select_nearest_office exClient [exOfficeB, exOfficeA] =
      Except.ok { office := exOfficeB,
                  distance_km := some (round2 (haversine_km exClient ⟨43, 76⟩)),
                  fallback_used := false,
                  reason := .nearest exOfficeB.name (haversine_km exClient ⟨43, 76⟩) } := by
    unfold select_nearest_office
    rw [hcand]
    simp only [hmin]
  exact ⟨_, hred, rfl, rfl, rfl, by simp, rfl⟩

/-- C3 witness: a list whose only office has no coordinates makes
`select_nearest_office` raise the no-candidates error. -/
theorem c3_nearest_office_witness :
    select_nearest_office exClient [exOfficeNoLoc] =
      .error "No offices with known locations available" :=
  (c3_nearest_office exClient [exOfficeNoLoc]).1 (by
    intro o ho
    rcases List.mem_singleton.mp ho with rfl
    rfl)

theorem select_nearest_shape (client : GeoPoint) (offices : List Office)
    (sel : OfficeSelection) (h : select_nearest_office client offices = .ok sel) :
    sel.fallback_used = false ∧
    ∃ ℓ, sel.office.location = some ℓ ∧
      sel.distance_km = some (round2 (haversine_km client ℓ)) := by
  unfold select_nearest_office at h
  rcases hcand : offices.filterMap (fun o =>
      o.location.map (fun ℓ => (o, haversine_km client ℓ))) with _ | ⟨c, rest⟩ <;>
    rw [hcand] at h
  · exact absurd h (by simp)
  · simp only [Except.ok.injEq] at h
    subst h
    have hbestmem : minByDist c rest ∈ c :: rest := by
      rcases minByDist_cases rest c with h1 | ⟨h1, _⟩
      · rw [h1]; exact List.mem_cons_self c rest
      · exact List.mem_cons_of_mem c h1
    rw [← hcand] at hbestmem
    obtain ⟨o, ho, hfo⟩ := List.mem_filterMap.mp hbestmem
    cases hloc : o.location with
    | none => rw [hloc] at hfo; exact absurd hfo (by simp)
    | some ℓ =>
      rw [hloc] at hfo
      simp only [Option.map_some', Option.some.injEq] at hfo
      refine ⟨rfl, ℓ, ?_, ?_⟩
      · rw [← hfo]; exact hloc
      · rw [← hfo]

theorem select_fallback_shape (counter : Nat) (offices : List Office)
    (sel : OfficeSelection) (h : select_fallback_office counter offices = .ok sel) :
    sel.fallback_used = true ∧ sel.distance_km = none := by
  unfold select_fallback_office at h
  split at h
  · exact absurd h (by simp)
  · split at h
    · split at h <;> (simp only [Except.ok.injEq] at h; subst h; exact ⟨rfl, rfl⟩)
    · simp only [Except.ok.injEq] at h
      subst h
      exact ⟨rfl, rfl⟩

theorem sqlIncrementCounter_ok (k : String) (st : PipelineState) :
    ∃ c st', sqlIncrementCounter k st = .ok c st' ∧ st'.assignments = st.assignments := by
  unfold sqlIncrementCounter
  cases st.counters.find? (fun kv => kv.1 == k) with
  | none => exact ⟨0, _, rfl, rfl⟩
  | some kv => exact ⟨kv.2, _, rfl, rfl⟩

theorem sqlAssignmentSave_cases (a : Assignment) (st : PipelineState) :
    sqlAssignmentSave a st = .err dupAssignmentMsg st ∨
    sqlAssignmentSave a st = .ok () { st with assignments := st.assignments ++ [a] } := by
  unfold sqlAssignmentSave
  by_cases h : st.assignments.any (fun x => x.ticket_id == a.ticket_id) = true
  · rw [if_pos h]; exact Or.inl rfl
  · rw [if_neg h]; exact Or.inr rfl

theorem officePhase_selection (llm : String → Option String → Except String AIAnalysis)
    (geo : String → Except String (Option GeoPoint)) (t : Ticket) (st : PipelineState)
    (sel : OfficeSelection) (st' : PipelineState)
    (h : officePhase (mkPorts llm geo) t st = .ok sel st') :
    (sel.fallback_used = true → sel.distance_km = none) ∧
    (sel.fallback_used = false →
      ∃ loc ℓ, t.client_location = some loc ∧ sel.office.location = some ℓ ∧
        sel.distance_km = some (round2 (haversine_km loc ℓ))) := by
  unfold officePhase at h
  simp only [mkPorts, sqlOfficesGetAll] at h
  cases hloc : t.client_location with
  | some loc =>
    simp only [hloc] at h
    cases hn : select_nearest_office loc (sortOfficesById st.offices) with
    | error e =>
      simp only [hn] at h
      exact absurd h (by simp)
    | ok s =>
      simp only [hn] at h
      cases h
      obtain ⟨hfb, ℓ, hl, hd⟩ := select_nearest_shape loc _ sel hn
      refine ⟨?_, fun _ => ⟨loc, ℓ, rfl, hl, hd⟩⟩
      intro htrue
      rw [hfb] at htrue
      exact absurd htrue (by simp)
  | none =>
    simp only [hloc] at h
    obtain ⟨c, st1, hic, -⟩ := sqlIncrementCounter_ok "office-fallback-50-50" st
    simp only [hic] at h
    cases hf : select_fallback_office c (sortOfficesById st.offices) with
    | error e =>
      simp only [hf] at h
      exact absurd h (by simp)
    | ok s =>
      simp only [hf] at h
      cases h
      obtain ⟨hfb, hd⟩ := select_fallback_shape c _ sel hf
      refine ⟨fun _ => hd, ?_⟩
      intro hfalse
      rw [hfb] at hfalse
      exact absurd hfalse (by simp)

theorem dispatchPhase_assignments (llm : String → Option String → Except String AIAnalysis)
    (geo : String → Except String (Option GeoPoint)) (t : Ticket) (analysis : AIAnalysis)
    (requirement : SkillRequirement) (sel : OfficeSelection) (eligible : List Manager)
    (st : PipelineState) :
    ∀ a ∈ (StepRes.state (dispatchPhase (mkPorts llm geo) t analysis requirement sel
      eligible st)).assignments,
      a ∈ st.assignments ∨
        (a.distance_km = sel.distance_km ∧ a.fallback_used = sel.fallback_used) := by
  intro a ha
  unfold dispatchPhase at ha
  by_cases he : eligible.isEmpty = true
  · rw [if_pos he] at ha
    simp only [StepRes.state] at ha
    exact Or.inl ha
  · rw [if_neg he] at ha
    simp only [mkPorts] at ha
    obtain ⟨c, st1, hic, hassign1⟩ :=
      sqlIncrementCounter_ok (rrKey sel requirement analysis) st
    simp only [hic] at ha
    cases hp : pick_next ((sortManagers eligible).take 2) c with
    | error e =>
      simp only [hp, StepRes.state] at ha
      rw [hassign1] at ha
      exact Or.inl ha
    | ok mn =>
      obtain ⟨m, n⟩ := mn
      simp only [hp] at ha
      rcases sqlAssignmentSave_cases
          { id := none, ticket_id := t.id, manager_id := m.id,
            office_id := sel.office.id, distance_km := sel.distance_km,
            assignment_reason := some sel.reason,
            fallback_used := sel.fallback_used } st1 with hs | hs
      · simp only [hs, StepRes.state] at ha
        rw [hassign1] at ha
        exact Or.inl ha
      · simp only [hs, sqlIncrementLoad, StepRes.state] at ha
        simp only [List.mem_append, List.mem_singleton] at ha
        rcases ha with ha | rfl
        · rw [hassign1] at ha
          exact Or.inl ha
        · exact Or.inr ⟨rfl, rfl⟩

/-- C4: every assignment outcome satisfies the distance invariant —
`select_nearest_office` yields `fallback_used = false` and a distance
equal to the haversine to the chosen office rounded to 0.01 km,
`select_fallback_office` yields `fallback_used = true` and a null
distance, the pipeline's office phase only produces selections
satisfying the invariant (with the distance computed from the ticket's
resolved coordinates), and the dispatch phase copies the selection's
`distance_km` and `fallback_used` unchanged into the persisted
Assignment row. -/
theorem c4_distance_invariant :
    (∀ (client : GeoPoint) (offices : List Office) (sel : OfficeSelection),
      select_nearest_office client offices = .ok sel →
      sel.fallback_used = false ∧
      ∃ ℓ, sel.office.location = some ℓ ∧
        sel.distance_km = some (round2 (haversine_km client ℓ))) ∧
    (∀ (counter : Nat) (offices : List Office) (sel : OfficeSelection),
      select_fallback_office counter offices = .ok sel →
      sel.fallback_used = true ∧ sel.distance_km = none) ∧
    (∀ (llm : String → Option String → Except String AIAnalysis)
        (geo : String → Except String (Option GeoPoint))
        (t : Ticket) (st : PipelineState) (sel : OfficeSelection) (st' : PipelineState),
      officePhase (mkPorts llm geo) t st = .ok sel st' →
      (sel.fallback_used = true → sel.distance_km = none) ∧
      (sel.fallback_used = false →
        ∃ loc ℓ, t.client_location = some loc ∧ sel.office.location = some ℓ ∧
          sel.distance_km = some (round2 (haversine_km loc ℓ)))) ∧
    (∀ (llm : String → Option String → Except String AIAnalysis)
        (geo : String → Except String (Option GeoPoint))
        (t : Ticket) (analysis : AIAnalysis) (requirement : SkillRequirement)
        (sel : OfficeSelection) (eligible : List Manager) (st : PipelineState),
      ∀ a ∈ (StepRes.state (dispatchPhase (mkPorts llm geo) t analysis requirement sel
        eligible st)).assignments,
        a ∈ st.assignments ∨
          (a.distance_km = sel.distance_km ∧ a.fallback_used = sel.fallback_used)) :=
  ⟨select_nearest_shape, select_fallback_shape, officePhase_selection, dispatchPhase_assignments⟩

/-- C4 witness: the hub fallback selection at counter 0 is marked
`fallback_used` and has a null distance. -/
theorem c4_distance_invariant_witness :
    select_fallback_office 0 [exHubAstana, exHubAlmaty] =
      .ok { office := exHubAstana, distance_km := none, fallback_used := true,
            reason := .fallbackHub ASTANA_HUB } ∧
    ({ office := exHubAstana, distance_km := none, fallback_used := true,
       reason := .fallbackHub ASTANA_HUB } : OfficeSelection).fallback_used = true ∧
    ({ office := exHubAstana, distance_km := none, fallback_used := true,
       reason := .fallbackHub ASTANA_HUB } : OfficeSelection).distance_km = none :=
  ⟨rfl, c4_distance_invariant.2.1 0 [exHubAstana, exHubAlmaty] _ rfl⟩

theorem map_to_analysis_priority_bounds (model : String) (r : RawReply) :
    1 ≤ (map_to_analysis model r).priority_score ∧
    (map_to_analysis model r).priority_score ≤ 10 := by
  unfold map_to_analysis
  refine ⟨le_max_left 1 _, ?_⟩
  exact max_le (by norm_num) (min_le_left _ _)

theorem heuristic_fallback_priority_bounds (text : String) :
    1 ≤ (heuristic_fallback text).priority_score ∧
    (heuristic_fallback text).priority_score ≤ 10 := by
  simp only [heuristic_fallback]
  split_ifs <;> exact ⟨by norm_num, by norm_num⟩

theorem post_adjust_priority_value (a : AIAnalysis) (text : String) :
    (post_adjust a text).priority_score = a.priority_score ∨
    (post_adjust a text).priority_score = max a.priority_score 9 ∨
    (post_adjust a text).priority_score = max a.priority_score 8 := by
  unfold post_adjust
  by_cases hspam : a.ticket_type = TicketType.SPAM
  · rw [if_pos hspam]
    exact Or.inl rfl
  · rw [if_neg hspam]
    simp only [apply_ite AIAnalysis.priority_score, ite_self]
    split_ifs <;> simp

theorem post_adjust_priority_bounds (a : AIAnalysis) (text : String)
    (h1 : 1 ≤ a.priority_score) (h2 : a.priority_score ≤ 10) :
    1 ≤ (post_adjust a text).priority_score ∧
    (post_adjust a text).priority_score ≤ 10 := by
  rcases post_adjust_priority_value a text with h | h | h <;> rw [h]
  · exact ⟨h1, h2⟩
  · exact ⟨le_trans (by norm_num) (le_max_right _ _), max_le h2 (by norm_num)⟩
  · exact ⟨le_trans (by norm_num) (le_max_right _ _), max_le h2 (by norm_num)⟩

/-- C9: for every text and every raw LLM reply the classifier's result
has a priority in [1, 10] (out-of-range raw values are clamped by
`max 1 (min 10 ·)`), and `_map_to_analysis` sends unrecognised
`ticket_type`, `sentiment` and `language` strings to the defaults
Consultation, Neutral and RU; the enum fields are drawn from the fixed
enumerations by construction. -/
theorem c9_classifier_closure (model : String) (reply : Option RawReply)
    (text : String) (raw : RawReply) :
    (1 ≤ (analyze_ticket model reply text).priority_score ∧
      (analyze_ticket model reply text).priority_score ≤ 10) ∧
    ((map_to_analysis model raw).priority_score =
      max 1 (min 10 (raw.priority_score.getD 5))) ∧
    ((∀ tt : TicketType, tt.value ≠ raw.ticket_type.getD "") →
      (map_to_analysis model raw).ticket_type = TicketType.CONSULTATION) ∧
    ((∀ s : Sentiment, s.value ≠ raw.sentiment.getD "") →
      (map_to_analysis model raw).sentiment = Sentiment.NEUTRAL) ∧
    ((∀ lg : Language, lg.value ≠ raw.language.getD "") →
      (map_to_analysis model raw).language = Language.RU) := by
  refine ⟨?_, rfl, ?_, ?_, ?_⟩
  · unfold analyze_ticket
    by_cases hs : looks_like_spam text = true
    · rw [if_pos hs]
      exact ⟨by norm_num [spam_result], by norm_num [spam_result]⟩
    · rw [if_neg hs]
      cases reply with
      | some parsed =>
        obtain ⟨b1, b2⟩ := map_to_analysis_priority_bounds model parsed
        exact post_adjust_priority_bounds _ text b1 b2
      | none =>
        obtain ⟨b1, b2⟩ := heuristic_fallback_priority_bounds text
        exact post_adjust_priority_bounds _ text b1 b2
  · intro h
    have hparse : parseTicketType (raw.ticket_type.getD "") = none := by
      unfold parseTicketType
      rw [List.find?_eq_none]
      intro tt _
      simp only [beq_iff_eq]
      exact h tt
    unfold map_to_analysis
    rw [hparse]
    rfl
  · intro h
    have hparse : parseSentiment (raw.sentiment.getD "") = none := by
      unfold parseSentiment
      rw [List.find?_eq_none]
      intro s _
      simp only [beq_iff_eq]
      exact h s
    unfold map_to_analysis
    rw [hparse]
    rfl
  · intro h
    have hparse : parseLanguage (raw.language.getD "") = none := by
      unfold parseLanguage
      rw [List.find?_eq_none]
      intro lg _
      simp only [beq_iff_eq]
      exact h lg
    unfold map_to_analysis
    rw [hparse]
    rfl

/-- C9 witness: a reply with unknown enum strings and priority 42 maps
to (Consultation, Neutral, RU) and the final priority lies in [1, 10]. -/
theorem c9_classifier_closure_witness :
    (map_to_analysis "gpt-test" exRawBad).ticket_type = TicketType.CONSULTATION ∧
    (map_to_analysis "gpt-test" exRawBad).sentiment = Sentiment.NEUTRAL ∧
    (map_to_analysis "gpt-test" exRawBad).language = Language.RU ∧
    (1 ≤ (analyze_ticket "gpt-test" (some exRawBad) "вопрос").priority_score ∧
      (analyze_ticket "gpt-test" (some exRawBad) "вопрос").priority_score ≤ 10) :=
  ⟨(c9_classifier_closure "gpt-test" (some exRawBad) "вопрос" exRawBad).2.2.1
      (by intro tt; cases tt <;> decide),
   (c9_classifier_closure "gpt-test" (some exRawBad) "вопрос" exRawBad).2.2.2.1
      (by intro s; cases s <;> decide),
   (c9_classifier_closure "gpt-test" (some exRawBad) "вопрос" exRawBad).2.2.2.2
      (by intro lg; cases lg <;> decide),
   (c9_classifier_closure "gpt-test" (some exRawBad) "вопрос" exRawBad).1⟩

theorem post_adjust_ticket_type (a : AIAnalysis) (text : String) :
    (post_adjust a text).ticket_type = a.ticket_type := by
  unfold post_adjust
  by_cases hspam : a.ticket_type = TicketType.SPAM
  · rw [if_pos hspam]
  · rw [if_neg hspam]
    simp only [apply_ite AIAnalysis.ticket_type, ite_self]

theorem post_adjust_fraud (a : AIAnalysis) (text : String)
    (hspam : a.ticket_type ≠ TicketType.SPAM)
    (hf : has_any_phrase (pyLower (pyStrip text)) FRAUD_MARKERS = true) :
    9 ≤ (post_adjust a text).priority_score := by
  unfold post_adjust
  rw [if_neg hspam]
  simp only [apply_ite AIAnalysis.priority_score, ite_self]
  rw [if_pos hf]
  exact le_max_right _ _

theorem post_adjust_blocked (a : AIAnalysis) (text : String)
    (hspam : a.ticket_type ≠ TicketType.SPAM)
    (hb : (has_any_phrase (pyLower (pyStrip text)) BLOCKED_MARKERS ||
        has_urgency (pyStrip text)) = true) :
    8 ≤ (post_adjust a text).priority_score := by
  unfold post_adjust
  rw [if_neg hspam]
  simp only [apply_ite AIAnalysis.priority_score, ite_self]
  by_cases hf : has_any_phrase (pyLower (pyStrip text)) FRAUD_MARKERS = true
  · rw [if_pos hf]
    exact le_trans (by norm_num) (le_max_right _ _)
  · rw [if_neg hf, if_pos hb]
    exact le_max_right _ _

/-- C8 (amended): for every text containing a fraud marker the final
priority is ≥ 9, and for every text containing a blocked-access or
urgency marker it is ≥ 8, provided the returned analysis is not
Spam-typed — the spam fast-path returns priority 1 regardless of
markers, and `_post_adjust` skips Spam analyses. -/
theorem c8_priority_boosts (model : String) (reply : Option RawReply) (text : String)
    (hns : (analyze_ticket model reply text).ticket_type ≠ TicketType.SPAM) :
    (has_any_phrase (pyLower (pyStrip text)) FRAUD_MARKERS = true →
      9 ≤ (analyze_ticket model reply text).priority_score) ∧
    ((has_any_phrase (pyLower (pyStrip text)) BLOCKED_MARKERS = true ∨
        has_urgency (pyStrip text) = true) →
      8 ≤ (analyze_ticket model reply text).priority_score) := by
  have key : ∀ b : AIAnalysis, (post_adjust b text).ticket_type ≠ TicketType.SPAM →
      (has_any_phrase (pyLower (pyStrip text)) FRAUD_MARKERS = true →
        9 ≤ (post_adjust b text).priority_score) ∧
      ((has_any_phrase (pyLower (pyStrip text)) BLOCKED_MARKERS = true ∨
          has_urgency (pyStrip text) = true) →
        8 ≤ (post_adjust b text).priority_score) := by
    intro b hb
    have hnspam : b.ticket_type ≠ TicketType.SPAM := by
      rw [← post_adjust_ticket_type b text]
      exact hb
    refine ⟨fun hf => post_adjust_fraud b text hnspam hf, fun hbu => ?_⟩
    refine post_adjust_blocked b text hnspam ?_
    rcases hbu with h | h <;> simp [h]
  unfold analyze_ticket at hns ⊢
  by_cases hs : looks_like_spam text = true
  · rw [if_pos hs] at hns
    exact absurd rfl hns
  · rw [if_neg hs] at hns ⊢
    cases reply with
    | some parsed => exact key (map_to_analysis model parsed) hns
    | none => exact key (heuristic_fallback text) hns

/-- C8 counterexample: a text that contains both a fraud marker
("мошенн") and a spam marker ("специальные цены") takes the spam
fast-path and ends with priority 1, not ≥ 9. -/
theorem c8_priority_boosts_counterexample :
    has_any_phrase (pyLower (pyStrip "специальные цены, мошенники")) FRAUD_MARKERS = true ∧
    (analyze_ticket "gpt-test" none "специальные цены, мошенники").ticket_type =
      TicketType.SPAM ∧
    (analyze_ticket "gpt-test" none "специальные цены, мошенники").priority_score = 1 := by
  refine ⟨by decide, by decide, by decide⟩

/-- C8 witness: the plain text "fraud" is not spam and its final
priority is boosted to at least 9. -/
theorem c8_priority_boosts_witness :
    (analyze_ticket "gpt-test" none "fraud").ticket_type ≠ TicketType.SPAM ∧
    9 ≤ (analyze_ticket "gpt-test" none "fraud").priority_score :=
  ⟨by decide, (c8_priority_boosts "gpt-test" none "fraud" (by decide)).1 (by decide)⟩

/-- C1: when the classifier verdict is Spam, the pipeline persists the
Analysis (with the ticket's id) and terminates: the final state
differs from the initial one only by the appended analytics row — no
geocoding ticket update, no counter advance, no Assignment — and the
result is a success with no manager, office, distance or error and
`fallback_used = false`.  The geocoder behaviour `geo` is universally
quantified, so the outcome cannot depend on any geocoder call. -/
theorem c1_spam_short_circuit (llm : String → Option String → Except String AIAnalysis)
    (geo : String → Except String (Option GeoPoint)) (a : AIAnalysis) (t : Ticket)
    (st : PipelineState)
    (hllm : llm (t.description.getD "") t.attachments = Except.ok a)
    (hspam : a.ticket_type = TicketType.SPAM)
    (hfresh : st.analytics.any (fun x => x.ticket_id == t.id) = false) :
    execute (mkPorts llm geo) t st =
      ({ ticket_id := t.id, ticket_guid := t.guid, assigned_manager := none,
         assigned_office := none, distance_km := none, fallback_used := false,
         error := none },
       { st with analytics := st.analytics ++ [{ a with ticket_id := t.id }] }) := by
  unfold execute executeInner
  simp only [mkPorts, hllm, sqlAnalyticsSave, hfresh, Bool.false_eq_true, if_false,
    hspam, if_true]

/-- C1 witness: a concrete spam verdict on a fresh state. -/
theorem c1_spam_short_circuit_witness :
    execute (mkPorts (exLlmOk exSpamAnalysis) exGeoNone) exTicket exFreshState =
      ({ ticket_id := exTicket.id, ticket_guid := exTicket.guid, assigned_manager := none,
         assigned_office := none, distance_km := none, fallback_used := false,
         error := none },
       { exFreshState with analytics := exFreshState.analytics ++
           [{ exSpamAnalysis with ticket_id := exTicket.id }] }) :=
  c1_spam_short_circuit (exLlmOk exSpamAnalysis) exGeoNone exSpamAnalysis exTicket
    exFreshState rfl rfl rfl

/-- C2 (amended): re-running the pipeline on a ticket that already has
an Assignment (and its Analysis) leaves the database state exactly
unchanged — no duplicate rows, no counter advance — but the returned
ProcessingResult carries the analytics unique-constraint violation in
its error field instead of being a non-error / the existing result. -/
theorem c2_rerun_duplicate (llm : String → Option String → Except String AIAnalysis)
    (geo : String → Except String (Option GeoPoint)) (a : AIAnalysis) (t : Ticket)
    (st : PipelineState)
    (hllm : llm (t.description.getD "") t.attachments = Except.ok a)
    (_hassigned : st.assignments.any (fun x => x.ticket_id == t.id) = true)
    (hanalytics : st.analytics.any (fun x => x.ticket_id == t.id) = true) :
    execute (mkPorts llm geo) t st =
      ({ ticket_id := t.id, ticket_guid := t.guid, assigned_manager := none,
         assigned_office := none, distance_km := none, fallback_used := false,
         error := some dupAnalyticsMsg }, st) := by
  unfold execute executeInner
  simp only [mkPorts, hllm, sqlAnalyticsSave, hanalytics, if_true]

/-- C2 counterexample: on a state where the ticket already has an
Assignment, a second execution returns an error result (the duplicate
analytics insert), contradicting "the returned ProcessingResult is not
an error". -/
theorem c2_rerun_counterexample :
    exProcessedState.assignments.any (fun x => x.ticket_id == exTicket.id) = true ∧
    (execute (mkPorts (exLlmOk exConsultAnalysis) exGeoNone) exTicket
        exProcessedState).1.error = some dupAnalyticsMsg :=
  ⟨rfl, rfl⟩

/-- C2 witness: the amended statement at the same concrete input,
including that the state is returned unchanged. -/
theorem c2_rerun_witness :
    execute (mkPorts (exLlmOk exConsultAnalysis) exGeoNone) exTicket exProcessedState =
      ({ ticket_id := exTicket.id, ticket_guid := exTicket.guid, assigned_manager := none,
         assigned_office := none, distance_km := none, fallback_used := false,
         error := some dupAnalyticsMsg }, exProcessedState) :=
  c2_rerun_duplicate (exLlmOk exConsultAnalysis) exGeoNone exConsultAnalysis exTicket
    exProcessedState rfl rfl rfl

/-- C10: `execute` never propagates an exception — every raise inside
the pipeline body is converted into a ProcessingResult whose error
field carries the exception message and whose assigned_manager,
assigned_office and distance_km are null with `fallback_used = false`;
every normal completion is returned as-is.  This holds for every
behaviour of the collaborator ports, including ports that raise. -/
theorem c10_exception_to_result (p : Ports) (t : Ticket) (st : PipelineState) :
    (∀ e st1, executeInner p t st = .err e st1 →
      execute p t st =
        ({ ticket_id := t.id, ticket_guid := t.guid, assigned_manager := none,
           assigned_office := none, distance_km := none, fallback_used := false,
           error := some e }, st1)) ∧
    (∀ r st1, executeInner p t st = .ok r st1 → execute p t st = (r, st1)) := by
  constructor
  · intro e st1 h
    unfold execute
    simp only [h]
  · intro r st1 h
    unfold execute
    simp only [h]

/-- C10 witness: a classifier port that raises "boom" produces the
catch-branch result. -/
theorem c10_exception_to_result_witness :
    execute (mkPorts exLlmBoom exGeoNone) exTicket exFreshState =
      ({ ticket_id := exTicket.id, ticket_guid := exTicket.guid, assigned_manager := none,
         assigned_office := none, distance_km := none, fallback_used := false,
         error := some "boom" }, exFreshState) :=
  (c10_exception_to_result (mkPorts exLlmBoom exGeoNone) exTicket exFreshState).1
    "boom" exFreshState rfl

end Router
